import Mathlib

/-!
Verification of the state-management layer of the spreed front-end:
the unread-counter Vuex module (embedded from the source) and the
guest-name store (modelled from the specification, as only its test
suite is present among the sources).
-/

set_option autoImplicit false
set_option linter.unusedSectionVars false

namespace Spreed

/-! ## Association-list model of a JS plain object used as a keyed map -/

/-- Reading `obj[k]`: `none` models an absent key (`undefined`). -/
def lookupKey {α β : Type} [BEq α] (m : List (α × β)) (k : α) : Option β :=
  (m.find? (fun p => p.1 == k)).map (fun p => p.2)

/-- Models `Vue.set(obj, k, v)`: replace the value at an existing key in
place, otherwise append the new key at the end. -/
def setKey {α β : Type} [BEq α] (m : List (α × β)) (k : α) (v : β) : List (α × β) :=
  if (m.find? (fun p => p.1 == k)).isSome then
    m.map (fun p => if p.1 == k then (k, v) else p)
  else
    m ++ [(k, v)]

/-- Models `Vue.delete(obj, k)`: remove the key from the object. -/
def delKey {α β : Type} [BEq α] (m : List (α × β)) (k : α) : List (α × β) :=
  m.filter (fun p => !(p.1 == k))

/-- Sum of all values stored in a map with numeric values. -/
def sumVals {α : Type} (m : List (α × Nat)) : Nat :=
  (m.map (fun p => p.2)).sum

/-- JS objects have no duplicate keys; the association-list model keeps
this as an invariant. -/
def keysNodup {α β : Type} (m : List (α × β)) : Prop :=
  (m.map (fun p => p.1)).Nodup

/-! ## Unread-counter store (src/src/mainRecording.js, Vuex module part)

Counters arriving in a payload may be `undefined`, modelled as
`Option Nat`; the source normalizes with `x || 0`, modelled as `getD 0`.
Totals are kept as `Int` since they are updated by signed diffs. -/

/-- `EVENTS.UNREAD_COUNT_UPDATED` from the source. -/
def UNREAD_COUNT_UPDATED : String := "talk:unread:updated"

/-- Payload of the `talk:unread:updated` event. -/
structure UnreadCountEvent where
  unreadMessages : Int
  unreadMentions : Int
  unreadMentionDirect : Int
deriving Repr, DecidableEq

/-- An event emitted on the process-wide bus: name and payload. -/
abbrev EmittedEvent := String × UnreadCountEvent

/-- The `state` object of the unread-counter Vuex module. -/
structure UnreadState where
  totalUnreadMessages : Int
  totalUnreadMentions : Int
  totalUnreadMentionDirect : Int
  unreadMessagesMap : List (String × Nat)
  unreadMentionsMap : List (String × Nat)
  unreadMentionDirectMap : List (String × Nat)
deriving Repr, DecidableEq

/-- The initial all-zero, empty-map state of the module. -/
def initState : UnreadState :=
  { totalUnreadMessages := 0
    totalUnreadMentions := 0
    totalUnreadMentionDirect := 0
    unreadMessagesMap := []
    unreadMentionsMap := []
    unreadMentionDirectMap := [] }

/-- The `UPDATE_CONVERSATION_COUNTS` mutation: computes per-field diffs
against the previously stored counts (absent treated as 0), replaces the
stored per-token counts with the normalized new values, applies the
diffs to the totals, and emits `talk:unread:updated` with the new
totals. Returns the new state and the list of emitted events. -/
def UPDATE_CONVERSATION_COUNTS (s : UnreadState) (token : String)
    (unreadMessages unreadMentions unreadMentionDirect : Option Nat) :
    UnreadState × List EmittedEvent :=
  let messageDiff : Int :=
    (unreadMessages.getD 0 : Int) - ((lookupKey s.unreadMessagesMap token).getD 0 : Int)
  let mentionsDiff : Int :=
    (unreadMentions.getD 0 : Int) - ((lookupKey s.unreadMentionsMap token).getD 0 : Int)
  let mentionDirectDiff : Int :=
    (unreadMentionDirect.getD 0 : Int) - ((lookupKey s.unreadMentionDirectMap token).getD 0 : Int)
  let s' : UnreadState :=
    { totalUnreadMessages := s.totalUnreadMessages + messageDiff
      totalUnreadMentions := s.totalUnreadMentions + mentionsDiff
      totalUnreadMentionDirect := s.totalUnreadMentionDirect + mentionDirectDiff
      unreadMessagesMap := setKey s.unreadMessagesMap token (unreadMessages.getD 0)
      unreadMentionsMap := setKey s.unreadMentionsMap token (unreadMentions.getD 0)
      unreadMentionDirectMap := setKey s.unreadMentionDirectMap token (unreadMentionDirect.getD 0) }
  (s', [(UNREAD_COUNT_UPDATED,
    { unreadMessages := s'.totalUnreadMessages
      unreadMentions := s'.totalUnreadMentions
      unreadMentionDirect := s'.totalUnreadMentionDirect })])

/-- The `REMOVE_CONVERSATION` mutation: subtracts the token's stored
counts (absent treated as 0) from the totals, deletes the token from
all three maps, and emits `talk:unread:updated` with the resulting
totals. -/
def REMOVE_CONVERSATION (s : UnreadState) (token : String) :
    UnreadState × List EmittedEvent :=
  let s' : UnreadState :=
    { totalUnreadMessages :=
        s.totalUnreadMessages - ((lookupKey s.unreadMessagesMap token).getD 0 : Int)
      totalUnreadMentions :=
        s.totalUnreadMentions - ((lookupKey s.unreadMentionsMap token).getD 0 : Int)
      totalUnreadMentionDirect :=
        s.totalUnreadMentionDirect - ((lookupKey s.unreadMentionDirectMap token).getD 0 : Int)
      unreadMessagesMap := delKey s.unreadMessagesMap token
      unreadMentionsMap := delKey s.unreadMentionsMap token
      unreadMentionDirectMap := delKey s.unreadMentionDirectMap token }
  (s', [(UNREAD_COUNT_UPDATED,
    { unreadMessages := s'.totalUnreadMessages
      unreadMentions := s'.totalUnreadMentions
      unreadMentionDirect := s'.totalUnreadMentionDirect })])

/-- The `RESET_ALL_COUNTERS` mutation: zeroes the three totals and
empties the three maps. It emits no event. -/
def RESET_ALL_COUNTERS (s : UnreadState) : UnreadState × List EmittedEvent :=
  ({ s with
      totalUnreadMessages := 0
      totalUnreadMentions := 0
      totalUnreadMentionDirect := 0
      unreadMessagesMap := []
      unreadMentionsMap := []
      unreadMentionDirectMap := [] }, [])

/-- One call of the two incremental actions of the unread-counter store
(`updateConversationCounts` and `removeConversation` commit the
corresponding mutation directly). -/
inductive UnreadOp where
  | update (token : String) (unreadMessages unreadMentions unreadMentionDirect : Option Nat)
  | remove (token : String)
deriving Repr, DecidableEq

/-- Apply one action to the state, discarding the emitted events. -/
def applyOp (s : UnreadState) : UnreadOp → UnreadState
  | .update token um un ud => (UPDATE_CONVERSATION_COUNTS s token um un ud).1
  | .remove token => (REMOVE_CONVERSATION s token).1

/-- Run a sequence of actions from the initial state. -/
def runOps (ops : List UnreadOp) : UnreadState :=
  ops.foldl applyOp initState

/-- A conversation as read by `recalculateTotalUnreadCounters` from the
root getter `conversationsList`; counter fields may be absent. -/
structure Conversation where
  token : String
  unreadMessages : Option Nat
  unreadMention : Option Nat
  unreadMentionDirect : Option Nat
deriving Repr, DecidableEq

/-- The `recalculateTotalUnreadCounters` action: commits
`RESET_ALL_COUNTERS`, returns early if the conversation list is missing
or empty, otherwise dispatches `updateConversationCounts` for each
conversation with `|| 0`-normalized fields. Returns the final state and
all emitted events in order. -/
def recalculateTotalUnreadCounters (s : UnreadState)
    (conversations : Option (List Conversation)) :
    UnreadState × List EmittedEvent :=
  let s1 := (RESET_ALL_COUNTERS s).1
  match conversations with
  | none => (s1, [])
  | some convs =>
    if convs.length = 0 then (s1, [])
    else
      convs.foldl (fun acc c =>
        let r := UPDATE_CONVERSATION_COUNTS acc.1 c.token
          (some (c.unreadMessages.getD 0)) (some (c.unreadMention.getD 0))
          (some (c.unreadMentionDirect.getD 0))
        (r.1, acc.2 ++ r.2)) (s1, [])

/-- The bookkeeping invariant of the unread-counter store: the maps are
JS objects, so they hold no duplicate keys, and each total equals the
sum of the corresponding per-token map. -/
def Inv (s : UnreadState) : Prop :=
  keysNodup s.unreadMessagesMap ∧ keysNodup s.unreadMentionsMap ∧
  keysNodup s.unreadMentionDirectMap ∧
  s.totalUnreadMessages = (sumVals s.unreadMessagesMap : Int) ∧
  s.totalUnreadMentions = (sumVals s.unreadMentionsMap : Int) ∧
  s.totalUnreadMentionDirect = (sumVals s.unreadMentionDirectMap : Int)

/-! ## Guest-name store

The guest-name store implementation (`stores/guestName.js`) is not among
the sources; only its test suite is. Its operations are therefore
modelled from the specification. -/

/-- Modelled from the spec: the localized default guest display name,
`t('spreed', 'Guest')`; localization is modelled as the identity, so the
default is the source string `Guest`. The store implementation is
missing from the sources. -/
def DEFAULT_GUEST_NAME : String := "Guest"

/-- Modelled from the spec: the guest-name mapping keyed by
(conversation token, actorId); an empty stored string means
unset / default. The store implementation is missing from the sources. -/
abbrev NameMap := List ((String × String) × String)

/-- An actor payload as passed to `addGuestName`. -/
structure Actor where
  token : String
  actorId : String
  actorDisplayName : String
deriving Repr, DecidableEq

/-- Modelled from the spec: `addGuestName(actor, { noUpdate })` — if
`noUpdate` is true, sets the name only if currently unset (absent or
empty) for that (token, actorId); if false, always overwrites,
clearing to the localized default when the incoming name is empty.
The store implementation is missing from the sources. -/
def addGuestName (m : NameMap) (actor : Actor) (noUpdate : Bool) : NameMap :=
  let stored := (lookupKey m (actor.token, actor.actorId)).getD ""
  if noUpdate && !(stored == "") then
    m
  else
    setKey m (actor.token, actor.actorId)
      (if actor.actorDisplayName == "" then DEFAULT_GUEST_NAME else actor.actorDisplayName)

/-- Modelled from the spec: `getGuestName(token, actorId)` returns the
stored name, or the localized default when the entry is absent or the
stored value is empty. The store implementation is missing from the
sources. -/
def getGuestName (m : NameMap) (token actorId : String) : String :=
  let stored := (lookupKey m (token, actorId)).getD ""
  if stored == "" then DEFAULT_GUEST_NAME else stored

/-- Modelled from the spec: `getGuestNameWithGuestSuffix(token, actorId)`
appends the `(guest)` marker unless the value equals the localized
default. The store implementation is missing from the sources. -/
def getGuestNameWithGuestSuffix (m : NameMap) (token actorId : String) : String :=
  let name := getGuestName m token actorId
  if name == DEFAULT_GUEST_NAME then name else name ++ " (guest)"

/-- Modelled from the spec: the guest-store state visible to
`submitGuestUsername` — the local guest-name map, the global
current-user display name, the persisted nickname (set via
`setGuestNickname`), and a count of logged errors. The store
implementation is missing from the sources. -/
structure GuestStoreState where
  guestNames : NameMap
  currentUserDisplayName : String
  persistedNickname : Option String
  loggedErrors : Nat
deriving Repr, DecidableEq

/-- Outcome of the remote `setGuestUserName` call, passed explicitly. -/
inductive RemoteResult where
  | success
  | failure
deriving Repr, DecidableEq

/-- Modelled from the spec: `submitGuestUsername(token, newName)` —
optimistically updates the local name, performs the remote update; on
success also sets the global current-user display name and persists the
nickname (the localized default when the submitted name is empty); on
failure reverts the local name to its prior value, logs the failure and
swallows the error. Returns the new state and the outcome surfaced to
the caller. The store implementation is missing from the sources. -/
def submitGuestUsername (st : GuestStoreState) (token actorId newName : String)
    (remote : RemoteResult) : GuestStoreState × Except String Unit :=
  let previousName := getGuestName st.guestNames token actorId
  let st1 := { st with
    guestNames := addGuestName st.guestNames
      { token := token, actorId := actorId, actorDisplayName := newName } false }
  match remote with
  | .success =>
    ({ st1 with
        currentUserDisplayName := newName
        persistedNickname :=
          some (if newName == "" then DEFAULT_GUEST_NAME else newName) }, .ok ())
  | .failure =>
    ({ st1 with
        guestNames := addGuestName st1.guestNames
          { token := token, actorId := actorId, actorDisplayName := previousName } false
        loggedErrors := st.loggedErrors + 1 }, .ok ())

/-! ## Lemmas on the association-list map model -/

section MapLemmas

variable {α β : Type} [BEq α] [LawfulBEq α]

theorem lookupKey_cons (p : α × β) (m : List (α × β)) (k : α) :
    lookupKey (p :: m) k = if p.1 == k then some p.2 else lookupKey m k := by
  cases h : p.1 == k
  · have hfind : List.find? (fun q => q.1 == k) (p :: m) = List.find? (fun q => q.1 == k) m :=
      List.find?_cons_of_neg _ (by simp [h])
    simp [lookupKey, hfind, h]
  · have hfind : List.find? (fun q => q.1 == k) (p :: m) = some p :=
      List.find?_cons_of_pos _ (by simpa using h)
    simp [lookupKey, hfind, h]

theorem setKey_cons_ne (p : α × β) (m : List (α × β)) (k : α) (v : β)
    (h : (p.1 == k) = false) :
    setKey (p :: m) k v = p :: setKey m k v := by
  have hfind : List.find? (fun q => q.1 == k) (p :: m) = List.find? (fun q => q.1 == k) m :=
    List.find?_cons_of_neg _ (by simp [h])
  unfold setKey
  rw [hfind]
  cases hf : (m.find? (fun q => q.1 == k)).isSome <;> simp [h]

theorem map_replace_of_forall_ne (m : List (α × β)) (k : α) (v : β)
    (h : ∀ q ∈ m, (q.1 == k) = false) :
    m.map (fun q => if q.1 == k then (k, v) else q) = m := by
  induction m with
  | nil => rfl
  | cons p m ih =>
    have hp := h p (List.mem_cons_self _ _)
    simp only [List.map_cons, hp]
    rw [if_neg (by simp [hp]), ih (fun q hq => h q (List.mem_cons_of_mem _ hq))]

theorem not_mem_keys_of_nodup_head (a : α) (b : β) (m : List (α × β))
    (h : keysNodup ((a, b) :: m)) : ∀ q ∈ m, (q.1 == a) = false := by
  intro q hq
  simp only [keysNodup, List.map_cons, List.nodup_cons] at h
  by_contra hne
  have hqa : q.1 = a := by
    cases hb : q.1 == a
    · exact absurd hb hne
    · exact eq_of_beq hb
  exact h.1 (hqa ▸ List.mem_map_of_mem (fun p => p.1) hq)

theorem lookupKey_eq_none_iff (m : List (α × β)) (k : α) :
    lookupKey m k = none ↔ ∀ q ∈ m, (q.1 == k) = false := by
  constructor
  · intro h q hq
    cases hfind : m.find? (fun q => q.1 == k) with
    | none =>
      have := List.find?_eq_none.1 hfind q hq
      cases hb : q.1 == k
      · rfl
      · exact absurd (by simpa using hb) this
    | some r =>
      unfold lookupKey at h
      rw [hfind] at h
      simp at h
  · intro h
    unfold lookupKey
    have : m.find? (fun q => q.1 == k) = none :=
      List.find?_eq_none.2 (fun q hq => by simp [h q hq])
    rw [this]
    rfl

theorem sumVals_setKey (m : List (α × Nat)) (k : α) (v : Nat) (h : keysNodup m) :
    sumVals (setKey m k v) + (lookupKey m k).getD 0 = sumVals m + v := by
  induction m with
  | nil => simp [setKey, lookupKey, sumVals]
  | cons p m ih =>
    obtain ⟨a, b⟩ := p
    have hm : keysNodup m := by
      simp only [keysNodup, List.map_cons, List.nodup_cons] at h
      exact h.2
    cases hb : a == k
    · rw [setKey_cons_ne (a, b) m k v (by simpa using hb), lookupKey_cons]
      rw [if_neg (by simp [hb])]
      have := ih hm
      simp only [sumVals, List.map_cons, List.sum_cons] at *
      omega
    · have hk : a = k := eq_of_beq hb
      subst hk
      have hrest : ∀ q ∈ m, (q.1 == a) = false := not_mem_keys_of_nodup_head a b m h
      have hfind : List.find? (fun q => q.1 == a) ((a, b) :: m) = some (a, b) :=
        List.find?_cons_of_pos _ (by simp)
      have hmap : m.map (fun q => if q.1 == a then (a, v) else q) = m :=
        map_replace_of_forall_ne m a v hrest
      unfold setKey lookupKey
      rw [hfind]
      simp only [Option.isSome_some, if_true, List.map_cons]
      rw [if_pos (by simp), hmap]
      simp only [sumVals, List.map_cons, List.sum_cons, Option.map_some', Option.getD_some]
      omega

theorem sumVals_delKey (m : List (α × Nat)) (k : α) (h : keysNodup m) :
    sumVals (delKey m k) + (lookupKey m k).getD 0 = sumVals m := by
  induction m with
  | nil => simp [delKey, lookupKey, sumVals]
  | cons p m ih =>
    obtain ⟨a, b⟩ := p
    have hm : keysNodup m := by
      simp only [keysNodup, List.map_cons, List.nodup_cons] at h
      exact h.2
    cases hb : a == k
    · have hcons : delKey ((a, b) :: m) k = (a, b) :: delKey m k := by
        unfold delKey
        rw [List.filter_cons]
        simp [hb]
      rw [hcons, lookupKey_cons, if_neg (by simp [hb])]
      have := ih hm
      simp only [sumVals, List.map_cons, List.sum_cons] at *
      omega
    · have hk : a = k := eq_of_beq hb
      subst hk
      have hrest : ∀ q ∈ m, (q.1 == a) = false := not_mem_keys_of_nodup_head a b m h
      have hfilter : delKey ((a, b) :: m) a = m := by
        unfold delKey
        rw [List.filter_cons]
        simp only [BEq.refl, Bool.not_true]
        rw [if_neg (by simp)]
        exact List.filter_eq_self.2 (fun q hq => by simp [hrest q hq])
      rw [hfilter, lookupKey_cons, if_pos (by simp)]
      simp only [sumVals, List.map_cons, List.sum_cons, Option.getD_some]
      omega

theorem keysNodup_setKey (m : List (α × β)) (k : α) (v : β) (h : keysNodup m) :
    keysNodup (setKey m k v) := by
  by_cases hf : (m.find? (fun q => q.1 == k)).isSome = true
  · have hkeys : (m.map (fun q => if q.1 == k then (k, v) else q)).map (fun p => p.1)
        = m.map (fun p => p.1) := by
      rw [List.map_map]
      apply List.map_congr_left
      intro q _
      cases hb : q.1 == k
      · simp [hb]
      · simp [hb, (eq_of_beq hb).symm]
    unfold setKey
    rw [if_pos hf]
    unfold keysNodup
    rw [hkeys]
    exact h
  · have hnone : m.find? (fun q => q.1 == k) = none := by
      cases hfind : m.find? (fun q => q.1 == k) with
      | none => rfl
      | some q => rw [hfind] at hf; simp at hf
    have hnotmem : k ∉ m.map (fun p => p.1) := by
      intro hmem
      obtain ⟨q, hq, hqk⟩ := List.mem_map.1 hmem
      have h2 := List.find?_eq_none.1 hnone q hq
      simp [hqk] at h2
    unfold setKey
    rw [if_neg hf]
    unfold keysNodup
    rw [List.map_append]
    simp only [List.map_cons, List.map_nil]
    refine List.nodup_append.2 ⟨h, List.nodup_singleton k, ?_⟩
    intro x hx hmem
    simp only [List.mem_singleton] at hmem
    exact hnotmem (hmem ▸ hx)

theorem keysNodup_delKey (m : List (α × β)) (k : α) (h : keysNodup m) :
    keysNodup (delKey m k) :=
  List.Nodup.sublist (List.Sublist.map (fun p => p.1) (List.filter_sublist m)) h

theorem lookupKey_setKey_self (m : List (α × β)) (k : α) (v : β) :
    lookupKey (setKey m k v) k = some v := by
  induction m with
  | nil => simp [setKey, lookupKey]
  | cons p m ih =>
    cases hb : p.1 == k
    · rw [setKey_cons_ne p m k v hb, lookupKey_cons]
      rw [if_neg (by simp [hb])]
      exact ih
    · have hfind : List.find? (fun q => q.1 == k) (p :: m) = some p :=
        List.find?_cons_of_pos _ (by simpa using hb)
      unfold setKey
      rw [hfind]
      simp only [Option.isSome_some, if_true, List.map_cons]
      rw [if_pos (by simpa using hb), lookupKey_cons]
      simp

theorem lookupKey_delKey_self (m : List (α × β)) (k : α) :
    lookupKey (delKey m k) k = none := by
  apply (lookupKey_eq_none_iff _ _).2
  intro q hq
  have := (List.mem_filter.1 hq).2
  cases hb : q.1 == k
  · rfl
  · simp [hb] at this

end MapLemmas

/-! ## The unread-counter invariant -/

theorem Inv_initState : Inv initState := by
  refine ⟨?_, ?_, ?_, rfl, rfl, rfl⟩ <;> simp [initState, keysNodup]

theorem Inv_update (s : UnreadState) (token : String) (um un ud : Option Nat)
    (h : Inv s) : Inv (UPDATE_CONVERSATION_COUNTS s token um un ud).1 := by
  obtain ⟨h1, h2, h3, h4, h5, h6⟩ := h
  have hs1 := sumVals_setKey s.unreadMessagesMap token (um.getD 0) h1
  have hs2 := sumVals_setKey s.unreadMentionsMap token (un.getD 0) h2
  have hs3 := sumVals_setKey s.unreadMentionDirectMap token (ud.getD 0) h3
  refine ⟨keysNodup_setKey _ _ _ h1, keysNodup_setKey _ _ _ h2,
    keysNodup_setKey _ _ _ h3, ?_, ?_, ?_⟩ <;>
    simp only [UPDATE_CONVERSATION_COUNTS] <;> omega

theorem Inv_remove (s : UnreadState) (token : String)
    (h : Inv s) : Inv (REMOVE_CONVERSATION s token).1 := by
  obtain ⟨h1, h2, h3, h4, h5, h6⟩ := h
  have hs1 := sumVals_delKey s.unreadMessagesMap token h1
  have hs2 := sumVals_delKey s.unreadMentionsMap token h2
  have hs3 := sumVals_delKey s.unreadMentionDirectMap token h3
  refine ⟨keysNodup_delKey _ _ h1, keysNodup_delKey _ _ h2,
    keysNodup_delKey _ _ h3, ?_, ?_, ?_⟩ <;>
    simp only [REMOVE_CONVERSATION] <;> omega

theorem Inv_applyOp (s : UnreadState) (op : UnreadOp) (h : Inv s) :
    Inv (applyOp s op) := by
  cases op with
  | update token um un ud => exact Inv_update s token um un ud h
  | remove token => exact Inv_remove s token h

theorem Inv_foldl (ops : List UnreadOp) (s : UnreadState) (h : Inv s) :
    Inv (ops.foldl applyOp s) := by
  induction ops generalizing s with
  | nil => exact h
  | cons op ops ih => exact ih (applyOp s op) (Inv_applyOp s op h)

theorem Inv_runOps (ops : List UnreadOp) : Inv (runOps ops) :=
  Inv_foldl ops initState Inv_initState

/-! ## Claims about the unread-counter store -/

/-- C1: For every sequence of `updateConversationCounts` and
`removeConversation` operations starting from the initial (all-zero,
empty-map) unread-counter state, each of the three totals
(`totalUnreadMessages`, `totalUnreadMentions`,
`totalUnreadMentionDirect`) equals the sum of the corresponding
per-token field across all currently tracked tokens. -/
theorem C1_totals_are_sums (ops : List UnreadOp) :
    (runOps ops).totalUnreadMessages = (sumVals (runOps ops).unreadMessagesMap : Int) ∧
    (runOps ops).totalUnreadMentions = (sumVals (runOps ops).unreadMentionsMap : Int) ∧
    (runOps ops).totalUnreadMentionDirect = (sumVals (runOps ops).unreadMentionDirectMap : Int) :=
  ⟨(Inv_runOps ops).2.2.2.1, (Inv_runOps ops).2.2.2.2.1, (Inv_runOps ops).2.2.2.2.2⟩

/-- C2: For every token and every counts payload,
`UPDATE_CONVERSATION_COUNTS` computes, per field, the difference
between the new count and the previously stored count for that token
(each treated as zero when absent), adds that difference to the
corresponding total, replaces the stored per-token counts with the new
values, and then emits the update event carrying the three new
totals. -/
theorem C2_update_conversation_counts (s : UnreadState) (token : String)
    (um un ud : Option Nat) :
    (UPDATE_CONVERSATION_COUNTS s token um un ud).1.totalUnreadMessages
      = s.totalUnreadMessages
        + ((um.getD 0 : Int) - ((lookupKey s.unreadMessagesMap token).getD 0 : Int)) ∧
    (UPDATE_CONVERSATION_COUNTS s token um un ud).1.totalUnreadMentions
      = s.totalUnreadMentions
        + ((un.getD 0 : Int) - ((lookupKey s.unreadMentionsMap token).getD 0 : Int)) ∧
    (UPDATE_CONVERSATION_COUNTS s token um un ud).1.totalUnreadMentionDirect
      = s.totalUnreadMentionDirect
        + ((ud.getD 0 : Int) - ((lookupKey s.unreadMentionDirectMap token).getD 0 : Int)) ∧
    lookupKey (UPDATE_CONVERSATION_COUNTS s token um un ud).1.unreadMessagesMap token
      = some (um.getD 0) ∧
    lookupKey (UPDATE_CONVERSATION_COUNTS s token um un ud).1.unreadMentionsMap token
      = some (un.getD 0) ∧
    lookupKey (UPDATE_CONVERSATION_COUNTS s token um un ud).1.unreadMentionDirectMap token
      = some (ud.getD 0) ∧
    (UPDATE_CONVERSATION_COUNTS s token um un ud).2
      = [(UNREAD_COUNT_UPDATED,
          { unreadMessages := (UPDATE_CONVERSATION_COUNTS s token um un ud).1.totalUnreadMessages
            unreadMentions := (UPDATE_CONVERSATION_COUNTS s token um un ud).1.totalUnreadMentions
            unreadMentionDirect :=
              (UPDATE_CONVERSATION_COUNTS s token um un ud).1.totalUnreadMentionDirect })] :=
  ⟨rfl, rfl, rfl, lookupKey_setKey_self _ _ _, lookupKey_setKey_self _ _ _,
    lookupKey_setKey_self _ _ _, rfl⟩

/-- C3: For every token, `REMOVE_CONVERSATION` subtracts exactly the
token's last stored counts (zero for each absent field) from the three
totals, then deletes the token's entries from all three per-token
maps, and then emits the update event with the resulting totals. -/
theorem C3_remove_conversation (s : UnreadState) (token : String) :
    (REMOVE_CONVERSATION s token).1.totalUnreadMessages
      = s.totalUnreadMessages - ((lookupKey s.unreadMessagesMap token).getD 0 : Int) ∧
    (REMOVE_CONVERSATION s token).1.totalUnreadMentions
      = s.totalUnreadMentions - ((lookupKey s.unreadMentionsMap token).getD 0 : Int) ∧
    (REMOVE_CONVERSATION s token).1.totalUnreadMentionDirect
      = s.totalUnreadMentionDirect - ((lookupKey s.unreadMentionDirectMap token).getD 0 : Int) ∧
    lookupKey (REMOVE_CONVERSATION s token).1.unreadMessagesMap token = none ∧
    lookupKey (REMOVE_CONVERSATION s token).1.unreadMentionsMap token = none ∧
    lookupKey (REMOVE_CONVERSATION s token).1.unreadMentionDirectMap token = none ∧
    (REMOVE_CONVERSATION s token).2
      = [(UNREAD_COUNT_UPDATED,
          { unreadMessages := (REMOVE_CONVERSATION s token).1.totalUnreadMessages
            unreadMentions := (REMOVE_CONVERSATION s token).1.totalUnreadMentions
            unreadMentionDirect := (REMOVE_CONVERSATION s token).1.totalUnreadMentionDirect })] :=
  ⟨rfl, rfl, rfl, lookupKey_delKey_self _ _, lookupKey_delKey_self _ _,
    lookupKey_delKey_self _ _, rfl⟩

/-- C4 counterexample: `RESET_ALL_COUNTERS` is a mutating operation on
the unread-counter store (on the given concrete state it changes the
totals and empties nonempty maps), yet it emits no `talk:unread:updated`
event at all, so the event is not emitted exactly once. -/
theorem C4_reset_counterexample :
    (RESET_ALL_COUNTERS
      { totalUnreadMessages := 5, totalUnreadMentions := 1, totalUnreadMentionDirect := 0,
        unreadMessagesMap := [("t1", 5)], unreadMentionsMap := [("t1", 1)],
        unreadMentionDirectMap := [("t1", 0)] }).1
      ≠ { totalUnreadMessages := 5, totalUnreadMentions := 1, totalUnreadMentionDirect := 0,
          unreadMessagesMap := [("t1", 5)], unreadMentionsMap := [("t1", 1)],
          unreadMentionDirectMap := [("t1", 0)] } ∧
    (RESET_ALL_COUNTERS
      { totalUnreadMessages := 5, totalUnreadMentions := 1, totalUnreadMentionDirect := 0,
        unreadMessagesMap := [("t1", 5)], unreadMentionsMap := [("t1", 1)],
        unreadMentionDirectMap := [("t1", 0)] }).2.length ≠ 1 := by
  constructor <;> decide

/-- C4 (amended): after each of the two incremental mutating operations
of the unread-counter store, `UPDATE_CONVERSATION_COUNTS` and
`REMOVE_CONVERSATION` — including when the computed delta is zero — the
`talk:unread:updated` event is emitted exactly once with payload equal
to the current totals; the `RESET_ALL_COUNTERS` mutation emits no
event. -/
theorem C4_amended_emission (s : UnreadState) (token : String) (um un ud : Option Nat) :
    (UPDATE_CONVERSATION_COUNTS s token um un ud).2
      = [(UNREAD_COUNT_UPDATED,
          { unreadMessages := (UPDATE_CONVERSATION_COUNTS s token um un ud).1.totalUnreadMessages
            unreadMentions := (UPDATE_CONVERSATION_COUNTS s token um un ud).1.totalUnreadMentions
            unreadMentionDirect :=
              (UPDATE_CONVERSATION_COUNTS s token um un ud).1.totalUnreadMentionDirect })] ∧
    (REMOVE_CONVERSATION s token).2
      = [(UNREAD_COUNT_UPDATED,
          { unreadMessages := (REMOVE_CONVERSATION s token).1.totalUnreadMessages
            unreadMentions := (REMOVE_CONVERSATION s token).1.totalUnreadMentions
            unreadMentionDirect := (REMOVE_CONVERSATION s token).1.totalUnreadMentionDirect })] ∧
    (RESET_ALL_COUNTERS s).2 = [] :=
  ⟨rfl, rfl, rfl⟩

/-- C8: a missing counter field is treated as zero on the write path
(`UPDATE_CONVERSATION_COUNTS` with absent payload fields stores `0`,
not `undefined`) and on the read path (a token absent from the maps
contributes a previous value of `0`, so updating an absent token with
absent fields and removing an absent token both leave every total
unchanged). -/
theorem C8_missing_fields_as_zero (s : UnreadState) (token : String)
    (hm : lookupKey s.unreadMessagesMap token = none)
    (hn : lookupKey s.unreadMentionsMap token = none)
    (hd : lookupKey s.unreadMentionDirectMap token = none) :
    lookupKey (UPDATE_CONVERSATION_COUNTS s token none none none).1.unreadMessagesMap token
      = some 0 ∧
    lookupKey (UPDATE_CONVERSATION_COUNTS s token none none none).1.unreadMentionsMap token
      = some 0 ∧
    lookupKey (UPDATE_CONVERSATION_COUNTS s token none none none).1.unreadMentionDirectMap token
      = some 0 ∧
    (UPDATE_CONVERSATION_COUNTS s token none none none).1.totalUnreadMessages
      = s.totalUnreadMessages ∧
    (UPDATE_CONVERSATION_COUNTS s token none none none).1.totalUnreadMentions
      = s.totalUnreadMentions ∧
    (UPDATE_CONVERSATION_COUNTS s token none none none).1.totalUnreadMentionDirect
      = s.totalUnreadMentionDirect ∧
    (REMOVE_CONVERSATION s token).1.totalUnreadMessages = s.totalUnreadMessages ∧
    (REMOVE_CONVERSATION s token).1.totalUnreadMentions = s.totalUnreadMentions ∧
    (REMOVE_CONVERSATION s token).1.totalUnreadMentionDirect = s.totalUnreadMentionDirect := by
  refine ⟨lookupKey_setKey_self _ _ _, lookupKey_setKey_self _ _ _,
    lookupKey_setKey_self _ _ _, ?_, ?_, ?_, ?_, ?_, ?_⟩ <;>
    simp [UPDATE_CONVERSATION_COUNTS, REMOVE_CONVERSATION, hm, hn, hd]

/-- Witness for C8 at the initial state and token `t1`: the hypotheses
(the token is untracked) hold and the store records zeros. -/
theorem C8_missing_fields_witness :
    lookupKey initState.unreadMessagesMap "t1" = none ∧
    lookupKey initState.unreadMentionsMap "t1" = none ∧
    lookupKey initState.unreadMentionDirectMap "t1" = none ∧
    lookupKey (UPDATE_CONVERSATION_COUNTS initState "t1" none none none).1.unreadMessagesMap "t1"
      = some 0 ∧
    (UPDATE_CONVERSATION_COUNTS initState "t1" none none none).1.totalUnreadMessages
      = initState.totalUnreadMessages :=
  ⟨rfl, rfl, rfl, (C8_missing_fields_as_zero initState "t1" rfl rfl rfl).1,
    (C8_missing_fields_as_zero initState "t1" rfl rfl rfl).2.2.2.1⟩

/-- C9: `recalculateTotalUnreadCounters` run over a missing or empty
conversation list leaves the store with all three totals equal to 0 and
all three per-token maps empty. -/
theorem C9_recalculate_empty (s : UnreadState) :
    ((recalculateTotalUnreadCounters s none).1.totalUnreadMessages = 0 ∧
     (recalculateTotalUnreadCounters s none).1.totalUnreadMentions = 0 ∧
     (recalculateTotalUnreadCounters s none).1.totalUnreadMentionDirect = 0 ∧
     (recalculateTotalUnreadCounters s none).1.unreadMessagesMap = [] ∧
     (recalculateTotalUnreadCounters s none).1.unreadMentionsMap = [] ∧
     (recalculateTotalUnreadCounters s none).1.unreadMentionDirectMap = []) ∧
    ((recalculateTotalUnreadCounters s (some [])).1.totalUnreadMessages = 0 ∧
     (recalculateTotalUnreadCounters s (some [])).1.totalUnreadMentions = 0 ∧
     (recalculateTotalUnreadCounters s (some [])).1.totalUnreadMentionDirect = 0 ∧
     (recalculateTotalUnreadCounters s (some [])).1.unreadMessagesMap = [] ∧
     (recalculateTotalUnreadCounters s (some [])).1.unreadMentionsMap = [] ∧
     (recalculateTotalUnreadCounters s (some [])).1.unreadMentionDirectMap = []) :=
  ⟨⟨rfl, rfl, rfl, rfl, rfl, rfl⟩, ⟨rfl, rfl, rfl, rfl, rfl, rfl⟩⟩

/-- C10: the reset step of the unread-counter store
(`RESET_ALL_COUNTERS`, and hence `recalculateTotalUnreadCounters` over
a missing or empty conversation list) mutates the state to all-zero
totals and empty maps without emitting any `talk:unread:updated`
event. -/
theorem C10_reset_is_silent (s : UnreadState) :
    (RESET_ALL_COUNTERS s).1.totalUnreadMessages = 0 ∧
    (RESET_ALL_COUNTERS s).1.totalUnreadMentions = 0 ∧
    (RESET_ALL_COUNTERS s).1.totalUnreadMentionDirect = 0 ∧
    (RESET_ALL_COUNTERS s).1.unreadMessagesMap = [] ∧
    (RESET_ALL_COUNTERS s).1.unreadMentionsMap = [] ∧
    (RESET_ALL_COUNTERS s).1.unreadMentionDirectMap = [] ∧
    (RESET_ALL_COUNTERS s).2 = [] ∧
    (recalculateTotalUnreadCounters s none).2 = [] ∧
    (recalculateTotalUnreadCounters s (some [])).2 = [] :=
  ⟨rfl, rfl, rfl, rfl, rfl, rfl, rfl, rfl, rfl⟩

/-! ## Lemmas about the guest-name store -/

theorem getGuestName_ne_empty (m : NameMap) (token actorId : String) :
    getGuestName m token actorId ≠ "" := by
  simp only [getGuestName]
  split
  · simp [DEFAULT_GUEST_NAME]
  · next h => simpa using h

theorem getGuestName_addGuestName_force (m : NameMap) (token actorId name : String) :
    getGuestName (addGuestName m ⟨token, actorId, name⟩ false) token actorId
      = if name = "" then DEFAULT_GUEST_NAME else name := by
  have hset : addGuestName m ⟨token, actorId, name⟩ false
      = setKey m (token, actorId) (if name == "" then DEFAULT_GUEST_NAME else name) := by
    simp [addGuestName]
  rw [hset]
  simp only [getGuestName, lookupKey_setKey_self]
  cases hn : name == ""
  · have h1 : name ≠ "" := by simpa using hn
    simp [hn, h1]
  · have h1 : name = "" := by simpa using hn
    simp [hn, h1, DEFAULT_GUEST_NAME]

theorem addGuestName_noUpdate_of_set (m : NameMap) (actor : Actor)
    (h : ((lookupKey m (actor.token, actor.actorId)).getD "") ≠ "") :
    addGuestName m actor true = m := by
  have hb : (((lookupKey m (actor.token, actor.actorId)).getD "") == "") = false := by
    simpa using h
  simp [addGuestName, hb]

theorem stored_ne_empty_of_getGuestName_ne_default (m : NameMap) (token actorId : String)
    (h : getGuestName m token actorId ≠ DEFAULT_GUEST_NAME) :
    ((lookupKey m (token, actorId)).getD "") ≠ "" := by
  intro hc
  apply h
  simp [getGuestName, hc]

/-! ## Claims about the guest-name store -/

/-- C5: For every token and every prior local name,
`submitGuestUsername` on remote-call failure reverts the locally stored
guest name (and the current-user display name) to its prior value,
logs the failure, and does not propagate the error to the caller; on
success it updates the local guest name, the global current-user
display name, and the persisted nickname, where an empty submitted
name persists the localized default nickname. -/
theorem C5_submit_guest_username (st : GuestStoreState) (token actorId newName : String) :
    ((submitGuestUsername st token actorId newName .failure).2 = .ok () ∧
     getGuestName (submitGuestUsername st token actorId newName .failure).1.guestNames
        token actorId
       = getGuestName st.guestNames token actorId ∧
     (submitGuestUsername st token actorId newName .failure).1.currentUserDisplayName
       = st.currentUserDisplayName ∧
     (submitGuestUsername st token actorId newName .failure).1.persistedNickname
       = st.persistedNickname ∧
     (submitGuestUsername st token actorId newName .failure).1.loggedErrors
       = st.loggedErrors + 1) ∧
    ((submitGuestUsername st token actorId newName .success).2 = .ok () ∧
     getGuestName (submitGuestUsername st token actorId newName .success).1.guestNames
        token actorId
       = (if newName = "" then DEFAULT_GUEST_NAME else newName) ∧
     (submitGuestUsername st token actorId newName .success).1.currentUserDisplayName
       = newName ∧
     (submitGuestUsername st token actorId newName .success).1.persistedNickname
       = some (if newName = "" then DEFAULT_GUEST_NAME else newName)) := by
  refine ⟨⟨rfl, ?_, rfl, rfl, rfl⟩, ⟨rfl, ?_, rfl, ?_⟩⟩
  · show getGuestName
      (addGuestName (addGuestName st.guestNames ⟨token, actorId, newName⟩ false)
        ⟨token, actorId, getGuestName st.guestNames token actorId⟩ false) token actorId
      = getGuestName st.guestNames token actorId
    rw [getGuestName_addGuestName_force]
    rw [if_neg (getGuestName_ne_empty st.guestNames token actorId)]
  · show getGuestName (addGuestName st.guestNames ⟨token, actorId, newName⟩ false) token actorId
      = (if newName = "" then DEFAULT_GUEST_NAME else newName)
    exact getGuestName_addGuestName_force st.guestNames token actorId newName
  · show (some (if newName == "" then DEFAULT_GUEST_NAME else newName) : Option String)
      = some (if newName = "" then DEFAULT_GUEST_NAME else newName)
    cases hn : newName == ""
    · have h1 : newName ≠ "" := by simpa using hn
      simp [h1]
    · have h1 : newName = "" := by simpa using hn
      simp [h1]

/-- C6: For every (token, actorId), `addGuestName` with `noUpdate=true`
never overwrites an existing non-default name, while with
`noUpdate=false` it always overwrites the stored name, including
resetting it to the localized default when the incoming name is
empty. -/
theorem C6_addGuestName_policy (m : NameMap) (actor : Actor) :
    (getGuestName m actor.token actor.actorId ≠ DEFAULT_GUEST_NAME →
      getGuestName (addGuestName m actor true) actor.token actor.actorId
        = getGuestName m actor.token actor.actorId) ∧
    getGuestName (addGuestName m actor false) actor.token actor.actorId
      = (if actor.actorDisplayName = "" then DEFAULT_GUEST_NAME else actor.actorDisplayName) := by
  constructor
  · intro h
    rw [addGuestName_noUpdate_of_set m actor
      (stored_ne_empty_of_getGuestName_ne_default m actor.token actor.actorId h)]
  · have := getGuestName_addGuestName_force m actor.token actor.actorId actor.actorDisplayName
    simpa using this

/-- Witness for C6 at a concrete store holding a non-default name
`alice` for ("t", "a"): `noUpdate=true` keeps `alice`, `noUpdate=false`
overwrites with `bob`. -/
theorem C6_addGuestName_policy_witness :
    getGuestName [(("t", "a"), "alice")] "t" "a" ≠ DEFAULT_GUEST_NAME ∧
    getGuestName (addGuestName [(("t", "a"), "alice")] ⟨"t", "a", "bob"⟩ true) "t" "a"
      = getGuestName [(("t", "a"), "alice")] "t" "a" ∧
    getGuestName (addGuestName [(("t", "a"), "alice")] ⟨"t", "a", "bob"⟩ false) "t" "a"
      = (if ("bob" : String) = "" then DEFAULT_GUEST_NAME else "bob") :=
  ⟨by decide, (C6_addGuestName_policy [(("t", "a"), "alice")] ⟨"t", "a", "bob"⟩).1 (by decide),
    (C6_addGuestName_policy [(("t", "a"), "alice")] ⟨"t", "a", "bob"⟩).2⟩

/-- C7: For every (token, actorId), `getGuestName` returns the
localized `Guest` default when no entry exists or the stored value is
empty, and `getGuestNameWithGuestSuffix` never appends the `(guest)`
marker when the value equals the localized default but always appends
it otherwise. -/
theorem C7_default_and_suffix (m : NameMap) (token actorId : String) :
    (lookupKey m (token, actorId) = none →
      getGuestName m token actorId = DEFAULT_GUEST_NAME) ∧
    (lookupKey m (token, actorId) = some "" →
      getGuestName m token actorId = DEFAULT_GUEST_NAME) ∧
    (getGuestName m token actorId = DEFAULT_GUEST_NAME →
      getGuestNameWithGuestSuffix m token actorId = DEFAULT_GUEST_NAME) ∧
    (getGuestName m token actorId ≠ DEFAULT_GUEST_NAME →
      getGuestNameWithGuestSuffix m token actorId
        = getGuestName m token actorId ++ " (guest)") := by
  refine ⟨?_, ?_, ?_, ?_⟩
  · intro h
    simp [getGuestName, h]
  · intro h
    simp [getGuestName, h]
  · intro h
    simp [getGuestNameWithGuestSuffix, h]
  · intro h
    have hb : (getGuestName m token actorId == DEFAULT_GUEST_NAME) = false := by
      simpa using h
    simp [getGuestNameWithGuestSuffix, hb]

/-- Witness for C7: at an empty store the default is returned with no
suffix; at a store holding the empty string the default is returned; at
a store holding `bob` the suffix is appended. -/
theorem C7_default_and_suffix_witness :
    getGuestName ([] : NameMap) "t" "a" = DEFAULT_GUEST_NAME ∧
    getGuestName [(("t", "a"), "")] "t" "a" = DEFAULT_GUEST_NAME ∧
    getGuestNameWithGuestSuffix ([] : NameMap) "t" "a" = DEFAULT_GUEST_NAME ∧
    getGuestNameWithGuestSuffix [(("t", "a"), "bob")] "t" "a"
      = getGuestName [(("t", "a"), "bob")] "t" "a" ++ " (guest)" :=
  ⟨(C7_default_and_suffix ([] : NameMap) "t" "a").1 rfl,
    (C7_default_and_suffix [(("t", "a"), "")] "t" "a").2.1 (by decide),
    (C7_default_and_suffix ([] : NameMap) "t" "a").2.2.1
      ((C7_default_and_suffix ([] : NameMap) "t" "a").1 rfl),
    (C7_default_and_suffix [(("t", "a"), "bob")] "t" "a").2.2.2 (by decide)⟩

end Spreed
